import Mathlib

/-!
Verification of `codex-rs/tui/src/editor.rs`: environment-based editor
command resolution (`resolve_editor_command`) and the edit-session runner
(`run_editor`).

The resolver reads `VISUAL`, falling back to `EDITOR`, and tokenizes the
value with the `shlex` crate's `split`. We embed the environment as a
lookup function `String → Option String` and embed `shlex::split` as a
character-level state machine faithful to the crate's lexer (whitespace
is space, tab and newline; `#` starts a comment only at word starts;
single quotes are literal; double quotes honor backslash escapes for
dollar, backtick, double quote and backslash; a backslash outside quotes
escapes the next character, with backslash-newline elided; unterminated
quotes or a trailing backslash are an error).

The runner is embedded as a function of an effect oracle (`World`) that
fixes the outcome of temp-file creation, the seed write, the subprocess
spawn/exit, and the final read; it returns the result together with the
trace of performed effects, which lets us state frame and cleanup
properties.
-/

/-- Single-quote character (ASCII 39). -/
def squoteChar : Char := Char.ofNat 39

/-- Backtick character (ASCII 96). -/
def btickChar : Char := Char.ofNat 96

/-- Characters the shlex lexer treats as word separators. -/
def isShlexWs (c : Char) : Bool :=
  c == ' ' || c == '\t' || c == '\n'

/-- States of the shlex lexer: between words, inside a comment, inside a
word, after a backslash in a word, inside single quotes, inside double
quotes, and after a backslash inside double quotes. -/
inductive LexState where
  | delim
  | comment
  | word
  | wordEsc
  | single
  | double
  | doubleEsc
deriving DecidableEq, Repr

/-- One pass of the shlex lexer over the remaining characters. `acc` is
the current word accumulated in reverse; `words` are the completed words
in reverse. Returns `none` exactly when the lexer reports an error:
end of input inside a quoted section or right after a backslash. -/
def shlexRun (st : LexState) (acc : List Char) (cs : List Char)
    (words : List String) : Option (List String) :=
  match cs with
  | [] =>
    match st with
    | .delim => some words.reverse
    | .comment => some words.reverse
    | .word => some ((String.mk acc.reverse :: words)).reverse
    | _ => none
  | c :: rest =>
    match st with
    | .delim =>
      if isShlexWs c then shlexRun .delim [] rest words
      else if c == '#' then shlexRun .comment [] rest words
      else if c == '"' then shlexRun .double [] rest words
      else if c == squoteChar then shlexRun .single [] rest words
      else if c == '\\' then shlexRun .wordEsc [] rest words
      else shlexRun .word [c] rest words
    | .comment =>
      if c == '\n' then shlexRun .delim [] rest words
      else shlexRun .comment [] rest words
    | .word =>
      if isShlexWs c then shlexRun .delim [] rest (String.mk acc.reverse :: words)
      else if c == '"' then shlexRun .double acc rest words
      else if c == squoteChar then shlexRun .single acc rest words
      else if c == '\\' then shlexRun .wordEsc acc rest words
      else shlexRun .word (c :: acc) rest words
    | .wordEsc =>
      if c == '\n' then shlexRun .word acc rest words
      else shlexRun .word (c :: acc) rest words
    | .single =>
      if c == squoteChar then shlexRun .word acc rest words
      else shlexRun .single (c :: acc) rest words
    | .double =>
      if c == '"' then shlexRun .word acc rest words
      else if c == '\\' then shlexRun .doubleEsc acc rest words
      else shlexRun .double (c :: acc) rest words
    | .doubleEsc =>
      if c == '$' || c == '"' || c == '\\' || c == btickChar then
        shlexRun .double (c :: acc) rest words
      else if c == '\n' then shlexRun .double acc rest words
      else shlexRun .double (c :: '\\' :: acc) rest words

/-- Embedding of `shlex::split`: POSIX-shell word splitting of `s`, or
`none` when `s` is not parseable (unbalanced quote, trailing backslash). -/
def shlex_split (s : String) : Option (List String) :=
  shlexRun .delim [] s.data []

/-- The error taxonomy of the resolver, from `enum EditorError`. -/
inductive EditorError where
  | MissingEditor
  | ParseFailed
  | EmptyCommand
deriving DecidableEq, Repr

/-- The `env::var("VISUAL").or_else(|_| env::var("EDITOR"))` chain:
the preferred variable's value when readable, otherwise the fallback's. -/
def lookupEditorVar (env : String → Option String) : Option String :=
  match env "VISUAL" with
  | some v => some v
  | none => env "EDITOR"

/-- Embedding of `resolve_editor_command`, parameterized by the process
environment: read `VISUAL` with `EDITOR` as fallback, shlex-split the
value, and reject an empty token list. -/
def resolve_editor_command (env : String → Option String) :
    Except EditorError (List String) :=
  match lookupEditorVar env with
  | none => .error .MissingEditor
  | some raw =>
    match shlex_split raw with
    | none => .error .ParseFailed
    | some parts =>
      if parts.isEmpty then .error .EmptyCommand else .ok parts

/-- The exit status reported for the editor subprocess: whether it was
success, plus the raw exit code when one exists (from `ExitStatus`). -/
structure ExitStatus where
  success : Bool
  code : Option Int
deriving DecidableEq, Repr

/-- The failure modes of `run_editor`: the defensive empty-command check,
I/O failures at each step (`?`-propagated in the source), a spawn
failure, and a non-success exit carrying the observed status. -/
inductive RunError where
  | emptyCommand
  | tempCreateFailed
  | writeFailed
  | spawnFailed
  | readFailed
  | nonSuccessExit (status : ExitStatus)
deriving DecidableEq, Repr

/-- Observable effects performed by one edit session, in order. -/
inductive Event where
  | createTemp (path : String)
  | write (path : String) (data : String)
  | spawn (prog : String) (args : List String)
  | readFile (path : String)
  | removeTemp (path : String)
deriving DecidableEq, Repr

/-- Oracle fixing the outcome of each external step of a session:
`tempPath` is the path of the created temp file (`none` = creation
fails), `writeOk` whether the seed write succeeds, `spawnResult` the
subprocess exit status (`none` = spawn fails), `readResult` the final
file contents (`none` = the read fails). -/
structure World where
  tempPath : Option String
  writeOk : Bool
  spawnResult : Option ExitStatus
  readResult : Option String
deriving DecidableEq, Repr

/-- Embedding of `run_editor`: reject an empty command before any
effect; create the temp file and write the seed; spawn
`editor_cmd[0]` with `editor_cmd[1..]` plus the temp path appended;
on success read the file back, mapping empty contents to `none`. The
`tempfile` guard drops (removing the file) on every return path after
creation, recorded as a final `removeTemp` event. -/
def run_editor (seed : String) (editor_cmd : List String) (w : World) :
    Except RunError (Option String) × List Event :=
  match editor_cmd with
  | [] => (.error .emptyCommand, [])
  | prog :: rest =>
    match w.tempPath with
    | none => (.error .tempCreateFailed, [])
    | some path =>
      if !w.writeOk then
        (.error .writeFailed,
          [.createTemp path, .write path seed, .removeTemp path])
      else
        match w.spawnResult with
        | none =>
          (.error .spawnFailed,
            [.createTemp path, .write path seed,
              .spawn prog (rest ++ [path]), .removeTemp path])
        | some status =>
          if !status.success then
            (.error (.nonSuccessExit status),
              [.createTemp path, .write path seed,
                .spawn prog (rest ++ [path]), .removeTemp path])
          else
            match w.readResult with
            | none =>
              (.error .readFailed,
                [.createTemp path, .write path seed,
                  .spawn prog (rest ++ [path]), .readFile path,
                  .removeTemp path])
            | some contents =>
              (if contents.isEmpty then .ok none else .ok (some contents),
                [.createTemp path, .write path seed,
                  .spawn prog (rest ++ [path]), .readFile path,
                  .removeTemp path])

/-- Environment with both variables set, for witnesses. -/
def envVisEd : String → Option String := fun k =>
  if k = "VISUAL" then some "vis" else if k = "EDITOR" then some "ed" else none

/-- Environment with neither variable set, for witnesses. -/
def envUnset : String → Option String := fun _ => none

/-- Environment whose editor value has a quoted argument, for witnesses. -/
def envQuoted : String → Option String := fun k =>
  if k = "VISUAL" then some "prog --flag \"a b\"" else none

/-- Environment whose editor value has an unmatched trailing quote. -/
def envBadQuote : String → Option String := fun k =>
  if k = "VISUAL" then some "prog \"" else none

/-- Environment whose editor value is whitespace-only. -/
def envWhitespaceOnly : String → Option String := fun k =>
  if k = "VISUAL" then some "   " else none

/-- Environment with `VISUAL` set to the empty string and `EDITOR` set. -/
def envEmptyVisual : String → Option String := fun k =>
  if k = "VISUAL" then some "" else if k = "EDITOR" then some "ed" else none

/-- Oracle for a session whose subprocess exits with failure status 1. -/
def worldExitOne : World :=
  ⟨some "/tmp/t.md", true, some ⟨false, some 1⟩, some "edited"⟩

/-- Oracle for a session that succeeds and reads back non-empty text. -/
def worldEdited : World :=
  ⟨some "/tmp/t.md", true, some ⟨true, some 0⟩, some "edited"⟩

/-- Oracle for a session that succeeds and reads back empty text. -/
def worldTruncated : World :=
  ⟨some "/tmp/t.md", true, some ⟨true, some 0⟩, some ""⟩

/-- Claim C1: when `VISUAL` is set to `"vis"` and `EDITOR` to `"ed"`,
resolution succeeds with exactly `["vis"]`; the `EDITOR` value is
ignored. -/
theorem resolve_prefers_visual (env : String → Option String)
    (hv : env "VISUAL" = some "vis") (he : env "EDITOR" = some "ed") :
    resolve_editor_command env = .ok ["vis"] := by
  simp only [resolve_editor_command, lookupEditorVar, hv]
  rfl

theorem resolve_prefers_visual_witness :
    resolve_editor_command envVisEd = .ok ["vis"] :=
  resolve_prefers_visual envVisEd (by decide) (by decide)

/-- Claim C2: when neither `VISUAL` nor `EDITOR` is set, resolution fails
with `MissingEditor`. -/
theorem resolve_missing_editor (env : String → Option String)
    (hv : env "VISUAL" = none) (he : env "EDITOR" = none) :
    resolve_editor_command env = .error .MissingEditor := by
  simp only [resolve_editor_command, lookupEditorVar, hv, he]

theorem resolve_missing_editor_witness :
    resolve_editor_command envUnset = .error .MissingEditor :=
  resolve_missing_editor envUnset rfl rfl

/-- Claim C3: the configured value is tokenized with shell
word-splitting, so a value with a properly quoted embedded-space
argument resolves to the three tokens with the quotes removed. -/
theorem resolve_quoted_tokens (env : String → Option String)
    (hv : env "VISUAL" = some "prog --flag \"a b\"") :
    resolve_editor_command env = .ok ["prog", "--flag", "a b"] := by
  simp only [resolve_editor_command, lookupEditorVar, hv]
  rfl

theorem resolve_quoted_tokens_witness :
    resolve_editor_command envQuoted = .ok ["prog", "--flag", "a b"] :=
  resolve_quoted_tokens envQuoted (by decide)

/-- Claim C4: when the configured value is not tokenizable under
shell-style quoting rules, resolution fails with `ParseFailed`. -/
theorem resolve_parse_failed (env : String → Option String) (raw : String)
    (h : lookupEditorVar env = some raw) (hs : shlex_split raw = none) :
    resolve_editor_command env = .error .ParseFailed := by
  simp only [resolve_editor_command, h, hs]

theorem resolve_parse_failed_witness :
    resolve_editor_command envBadQuote = .error .ParseFailed :=
  resolve_parse_failed envBadQuote "prog \"" (by decide) (by decide)

/-- Claim C5: a configured value that tokenizes to zero tokens makes
resolution fail with `EmptyCommand`; consequently any successfully
resolved command is a non-empty token list. -/
theorem resolve_empty_tokens (env e2 : String → Option String)
    (raw : String) (cmd : List String)
    (h : lookupEditorVar env = some raw) (hs : shlex_split raw = some [])
    (hok : resolve_editor_command e2 = .ok cmd) :
    resolve_editor_command env = .error .EmptyCommand ∧ cmd ≠ [] := by
  constructor
  · simp only [resolve_editor_command, h, hs]
    rfl
  · intro hnil
    subst hnil
    unfold resolve_editor_command at hok
    split at hok
    · exact Except.noConfusion hok
    · split at hok
      · exact Except.noConfusion hok
      · split at hok
        · exact Except.noConfusion hok
        · injection hok with hparts
          simp_all

theorem resolve_empty_tokens_witness :
    resolve_editor_command envWhitespaceOnly = .error .EmptyCommand ∧
      (["vis"] : List String) ≠ [] :=
  resolve_empty_tokens envWhitespaceOnly envVisEd "   " ["vis"]
    (by decide) (by decide) rfl

/-- Claim C10: when `VISUAL` is set to the empty string and `EDITOR` is
set, resolution does not fall back to `EDITOR`: the empty string
tokenizes to zero tokens and resolution fails with `EmptyCommand`. -/
theorem resolve_empty_visual_no_fallback (env : String → Option String)
    (s : String) (hv : env "VISUAL" = some "") (he : env "EDITOR" = some s) :
    resolve_editor_command env = .error .EmptyCommand := by
  simp only [resolve_editor_command, lookupEditorVar, hv]
  rfl

theorem resolve_empty_visual_no_fallback_witness :
    resolve_editor_command envEmptyVisual = .error .EmptyCommand :=
  resolve_empty_visual_no_fallback envEmptyVisual "ed" (by decide) (by decide)

/-- Claim C6: with an empty command list, `run_editor` fails immediately
with the empty-command error and performs no effect at all: no temp file
is created, nothing is written, no process is spawned. -/
theorem run_editor_empty_command (seed : String) (w : World) :
    run_editor seed [] w = (.error .emptyCommand, []) := rfl

/-- Claim C7: when the subprocess reports a non-success exit status,
`run_editor` fails with an error carrying that status, and the trace
contains no read of the temp file. -/
theorem run_editor_non_success_no_read (seed : String) (cmd : List String)
    (w : World) (p q : String) (st : ExitStatus)
    (hc : cmd ≠ []) (hp : w.tempPath = some p) (hw : w.writeOk = true)
    (hs : w.spawnResult = some st) (hf : st.success = false) :
    (run_editor seed cmd w).1 = .error (.nonSuccessExit st) ∧
      Event.readFile q ∉ (run_editor seed cmd w).2 := by
  rcases cmd with _ | ⟨prog, rest⟩
  · exact absurd rfl hc
  · simp [run_editor, hp, hw, hs, hf]

theorem run_editor_non_success_no_read_witness :
    (run_editor "seed" ["vi"] worldExitOne).1 =
        .error (.nonSuccessExit ⟨false, some 1⟩) ∧
      Event.readFile "/tmp/t.md" ∉ (run_editor "seed" ["vi"] worldExitOne).2 :=
  run_editor_non_success_no_read "seed" ["vi"] worldExitOne "/tmp/t.md"
    "/tmp/t.md" ⟨false, some 1⟩ (by decide) (by decide) (by decide)
    (by decide) (by decide)

/-- Claim C8: when the subprocess exits successfully and the read
succeeds, the result is determined by the collected text: empty text
gives `Ok none` (the no-change signal, never an error), non-empty text
gives `Ok (some text)`. -/
theorem run_editor_collect_result (seed : String) (cmd : List String)
    (w : World) (p : String) (st : ExitStatus) (contents : String)
    (hc : cmd ≠ []) (hp : w.tempPath = some p) (hw : w.writeOk = true)
    (hs : w.spawnResult = some st) (hsucc : st.success = true)
    (hr : w.readResult = some contents) :
    (run_editor seed cmd w).1 =
      (if contents.isEmpty then Except.ok none
       else Except.ok (some contents)) := by
  rcases cmd with _ | ⟨prog, rest⟩
  · exact absurd rfl hc
  · simp [run_editor, hp, hw, hs, hsucc, hr]

theorem run_editor_collect_result_witness :
    (run_editor "seed" ["vi"] worldEdited).1 =
        (if ("edited" : String).isEmpty then Except.ok none
         else Except.ok (some "edited")) ∧
      (run_editor "seed" ["vi"] worldTruncated).1 =
        (if ("" : String).isEmpty then Except.ok none
         else Except.ok (some "")) :=
  ⟨run_editor_collect_result "seed" ["vi"] worldEdited "/tmp/t.md"
      ⟨true, some 0⟩ "edited" (by decide) (by decide) (by decide)
      (by decide) (by decide) (by decide),
    run_editor_collect_result "seed" ["vi"] worldTruncated "/tmp/t.md"
      ⟨true, some 0⟩ "" (by decide) (by decide) (by decide)
      (by decide) (by decide) (by decide)⟩

/-- Claim C9: whenever the session gets past the empty-command check and
the temp file is created, the last effect of the session is the removal
of that temp file, on every exit path. -/
theorem run_editor_cleanup (seed : String) (cmd : List String)
    (w : World) (p : String) (hc : cmd ≠ []) (hp : w.tempPath = some p) :
    (run_editor seed cmd w).2.getLast? = some (.removeTemp p) := by
  rcases cmd with _ | ⟨prog, rest⟩
  · exact absurd rfl hc
  · cases hwo : w.writeOk with
    | false => simp only [run_editor, hp, hwo] ; rfl
    | true =>
      cases hsp : w.spawnResult with
      | none => simp only [run_editor, hp, hwo, hsp] ; rfl
      | some st =>
        cases hss : st.success with
        | false => simp only [run_editor, hp, hwo, hsp, hss] ; rfl
        | true =>
          cases hr : w.readResult with
          | none => simp only [run_editor, hp, hwo, hsp, hss, hr] ; rfl
          | some contents =>
            by_cases hce : contents.isEmpty <;>
              simp only [run_editor, hp, hwo, hsp, hss, hr, hce] <;> rfl

theorem run_editor_cleanup_witness :
    (run_editor "seed" ["vi"] worldExitOne).2.getLast? =
      some (.removeTemp "/tmp/t.md") :=
  run_editor_cleanup "seed" ["vi"] worldExitOne "/tmp/t.md"
    (by decide) (by decide)
